import Mathlib

/-!
Shallow embedding of the sagepick.core job/synchronization subsystem.

Sources embedded (paths relative to the repository root):
- app/utils/movie_processor.py   (BatchProcessResult, the three processors)
- app/core/redis.py              (RedisClient.acquire_movie_lock)
- app/jobs/movie_discovery.py    (MovieDiscoveryJob.run / _discover_movies)
- app/jobs/change_tracking.py    (ChangeTrackingJob.run / _track_changes)
- app/crud/job_status.py         (CRUDJobStatus state transitions and counters)
- app/core/api_client.py         (ApiClient._request retry loop, the client that
                                  app.core exports and the TMDB client uses)
- app/crud/movie.py              (upsert_movie_with_relationships and the
                                  ON CONFLICT DO NOTHING list-insert path)
- app/utils/rate_limiter.py      (AsyncRateLimiter.acquire)

Machine integers are modelled as Nat/Int, timestamps as Nat ticks, Python
floats that are only stored and compared (never computed with) as Rat,
SQL NULL / Python None as Option.
-/

namespace SagePick

/-- Embeds the dataclass `BatchProcessResult` of app/utils/movie_processor.py:
ephemeral per-batch counters. -/
structure BatchProcessResult where
  attempted : Nat := 0
  succeeded : Nat := 0
  failed : Nat := 0
  skipped_locked : Nat := 0
  skipped_existing : Nat := 0
deriving Repr, DecidableEq

/-- The possible outcomes of the lock-store interaction inside
`RedisClient.acquire_movie_lock` (app/core/redis.py, lines 46-61):
the SET NX EX call finds the key absent (`free`), finds it present
(`held`), or the store client raises (`infraError`); additionally the
client object may be uninitialized (`self.redis is None`). -/
inductive LockStoreOutcome
  | free
  | held
  | infraError
  | uninitialized
deriving Repr, DecidableEq

/-- Embeds `RedisClient.acquire_movie_lock`: returns True only when the
SET NX EX call succeeds; a held key returns False, an exception from the
store is caught and logged and False is returned, an uninitialized client
returns False.  No caller-visible distinction between the causes. -/
def acquire_movie_lock : LockStoreOutcome → Bool
  | .free => true
  | .held => false
  | .infraError => false
  | .uninitialized => false

/-- Outcome of one call to the per-item processor
(`fetch_and_insert_full` / `fetch_and_upsert_full`): returns a movie
(`ok`), returns None (`retNone`), or raises (`raises`; the job loop
catches the exception at the item boundary). -/
inductive ProcessOutcome
  | ok
  | retNone
  | raises
deriving Repr, DecidableEq

/-- Per-iteration environment of the batch loop: the lock-store outcome
for this item's acquire call and the processor outcome if invoked. -/
structure ItemEnv where
  lock : LockStoreOutcome
  proc : ProcessOutcome
deriving Repr, DecidableEq

/-- Cooperative-cancellation observation: `cancelAt = some k` means the
cancel event (set by JobExecutionManager.cancel) is observed by the
loop's per-item check from global item index `k` on; `none` means the
event is never set during the run.  An asyncio.Event stays set once set,
so the check fires at every index `i ≥ k`. -/
def cancelFires (cancelAt : Option Nat) (i : Nat) : Bool :=
  match cancelAt with
  | some k => k ≤ i
  | none => false

/-- Embeds the shared per-item batch loop body of
`MovieDiscoveryJob._discover_movies` (app/jobs/movie_discovery.py,
lines 222-263) and `ChangeTrackingJob._track_changes`
(app/jobs/change_tracking.py, lines 218-252), which are identical in
their effect on the counters: for each (movie_id, environment) pair, in
input order: if the cancel event is set, break; acquire the lock - on a
falsy result increment `skipped_locked` and continue; otherwise
increment `attempted`, run the processor, increment `succeeded` on a
returned movie and `failed` on None or on a caught exception (the lock
release in the `finally` block touches only the store).  The second
component of the result is the trace of movie ids for which processing
was attempted (lock acquired, processor invoked), in order. -/
def lockedBatchLoopFrom (cancelAt : Option Nat) :
    Nat → List (Nat × ItemEnv) → BatchProcessResult →
    BatchProcessResult × List Nat
  | _, [], r => (r, [])
  | i, (mid, e) :: rest, r =>
    if cancelFires cancelAt i then
      (r, [])
    else if acquire_movie_lock e.lock then
      let r1 := { r with attempted := r.attempted + 1 }
      let r2 :=
        match e.proc with
        | .ok => { r1 with succeeded := r1.succeeded + 1 }
        | .retNone => { r1 with failed := r1.failed + 1 }
        | .raises => { r1 with failed := r1.failed + 1 }
      let rt := lockedBatchLoopFrom cancelAt (i + 1) rest r2
      (rt.1, mid :: rt.2)
    else
      lockedBatchLoopFrom cancelAt (i + 1) rest
        { r with skipped_locked := r.skipped_locked + 1 }

/-- The batch loop started on fresh counters at index 0, as
`_discover_movies` does after constructing `BatchProcessResult()`. -/
def lockedBatchLoop (cancelAt : Option Nat) (items : List (Nat × ItemEnv)) :
    BatchProcessResult × List Nat :=
  lockedBatchLoopFrom cancelAt 0 items {}

/-- Embeds the id-list construction of `_discover_movies`
(lines 213-217): `movies[: movie_items_per_run]`, keeping only truthy
tmdb ids (0 is falsy in Python). -/
def discoverMovieIds (ids : List Nat) (limit : Nat) : List Nat :=
  (ids.take limit).filter (fun i => i ≠ 0)

/-- Embeds `JobExecutionStatus` of app/models/job_status.py. -/
inductive JobExecutionStatus
  | pending
  | running
  | completed
  | failed
  | cancelled
deriving Repr, DecidableEq

/-- The persisted JobStatus fields the runners mutate (timestamps and
job type omitted; `processed_items` and `failed_items` default to 0 in
`JobStatusBase`). -/
structure JobStatusRec where
  status : JobExecutionStatus
  processed_items : Nat
  failed_items : Nat
deriving Repr, DecidableEq

/-- Embeds `CRUDJobStatus.create_job`: a fresh row in state PENDING with
zero counters. -/
def create_job : JobStatusRec :=
  { status := .pending, processed_items := 0, failed_items := 0 }

/-- Embeds `CRUDJobStatus.start_job`: transition to RUNNING. -/
def start_job (j : JobStatusRec) : JobStatusRec :=
  { j with status := .running }

/-- Embeds `CRUDJobStatus.complete_job`: transition to COMPLETED; each
counter is overwritten only when the corresponding argument is not None. -/
def complete_job (j : JobStatusRec) (items_processed failed_items : Option Nat) :
    JobStatusRec :=
  { j with
    status := .completed
    processed_items := items_processed.getD j.processed_items
    failed_items := failed_items.getD j.failed_items }

/-- Embeds `CRUDJobStatus.fail_job`: transition to FAILED; counters
overwritten only when given. -/
def fail_job (j : JobStatusRec) (processed_items failed_items : Option Nat) :
    JobStatusRec :=
  { j with
    status := .failed
    processed_items := processed_items.getD j.processed_items
    failed_items := failed_items.getD j.failed_items }

/-- Embeds `CRUDJobStatus.cancel_job`: transition to CANCELLED; counters
overwritten only when given. -/
def cancel_job (j : JobStatusRec) (processed_items failed_items : Option Nat) :
    JobStatusRec :=
  { j with
    status := .cancelled
    processed_items := processed_items.getD j.processed_items
    failed_items := failed_items.getD j.failed_items }

/-- Embeds `CRUDJobStatus.increment_counts` (app/crud/job_status.py,
lines 106-132): returns unchanged when both deltas are falsy, otherwise
adds each nonzero delta to the persisted counter in one update. -/
def increment_counts (j : JobStatusRec) (processed_delta failed_delta : Nat) :
    JobStatusRec :=
  if processed_delta = 0 ∧ failed_delta = 0 then j
  else
    { j with
      processed_items := j.processed_items + processed_delta
      failed_items := j.failed_items + failed_delta }

/-- Embeds the failure-rate computation of the runners'
`run` methods: `failed / attempted` when anything was attempted, else 0. -/
def failureRate (r : BatchProcessResult) : ℚ :=
  if 0 < r.attempted then (r.failed : ℚ) / (r.attempted : ℚ) else 0

/-- The default `error_rate_threshold` of `JobSettings`
(app/core/settings.py, line 8): 0.9. -/
def errorRateThresholdDefault : ℚ := 9 / 10

/-- Embeds the tail of the runners' `run` methods (movie_discovery.py
lines 88-122, change_tracking.py lines 79-113): FAIL the job (passing
the accumulated succeeded/failed counts) when something was attempted
and the failure rate reaches the threshold, otherwise COMPLETE it with
the same counts. -/
def applyFailurePolicy (θ : ℚ) (r : BatchProcessResult) (j : JobStatusRec) :
    JobStatusRec :=
  if 0 < r.attempted ∧ θ ≤ failureRate r then
    fail_job j (some r.succeeded) (some r.failed)
  else
    complete_job j (some r.succeeded) (some r.failed)

/-- Embeds `MovieDiscoveryJob.run` together with `_discover_movies` for
one page of `items` (per-iteration environments, paired with movie ids).
Cancellation model (from JobExecutionManager.cancel, which sets the
cooperative event and then calls `task.cancel()`): when the event is
observed at a per-item check (`cancelAt = some k`, `k < items.length`;
also the pre-fetch check for `k = 0`), the very next awaited call in the
job raises `asyncio.CancelledError`, which `run` catches before the
post-loop `increment_counts` has committed, calling
`cancel_job(processed_items=None, failed_items=None)`.  When the event
is set only after every per-item check has passed, the loop and the
post-loop `increment_counts` complete and the pending CancelledError is
caught at a later await, again reaching `cancel_job(None, None)`. -/
def runDiscovery (θ : ℚ) (cancelAt : Option Nat)
    (items : List (Nat × ItemEnv)) : JobStatusRec :=
  let j := start_job create_job
  match cancelAt with
  | some k =>
    if k < items.length then
      cancel_job j none none
    else
      let r := (lockedBatchLoop none items).1
      let j :=
        if r.succeeded ≠ 0 ∨ r.failed ≠ 0 then
          increment_counts j r.succeeded r.failed
        else j
      cancel_job j none none
  | none =>
    let r := (lockedBatchLoop none items).1
    let j :=
      if r.succeeded ≠ 0 ∨ r.failed ≠ 0 then
        increment_counts j r.succeeded r.failed
      else j
    applyFailurePolicy θ r j

/-- Embeds the page loop of `ChangeTrackingJob._track_changes`
(app/jobs/change_tracking.py, lines 165-285), without cancellation:
pages are consumed in order; an empty result page stops the loop
(`if not changes_response.results: break`); the per-item counters
`total_attempted` etc. accumulate ACROSS pages in the same variables;
after each nonempty page's item loop, when the running totals of
succeeded or failed are truthy, `increment_counts` is called with the
RUNNING TOTALS `total_succeeded` / `total_failed` as the deltas
(lines 255-261) - this is the cumulative-totals call the source makes,
embedded as written. -/
def trackPages :
    List (List (Nat × ItemEnv)) → BatchProcessResult → JobStatusRec →
    BatchProcessResult × JobStatusRec
  | [], r, j => (r, j)
  | page :: rest, r, j =>
    if page.isEmpty then (r, j)
    else
      let r1 := (lockedBatchLoopFrom none 0 page r).1
      let j1 :=
        if r1.succeeded ≠ 0 ∨ r1.failed ≠ 0 then
          increment_counts j r1.succeeded r1.failed
        else j
      trackPages rest r1 j1

/-- Embeds `ChangeTrackingJob.run` with `_track_changes` (no
cancellation signalled): run the page loop from fresh counters, then
apply the failure-rate policy exactly as movie discovery does. -/
def runChangeTracking (θ : ℚ) (pages : List (List (Nat × ItemEnv))) :
    JobStatusRec :=
  let j := start_job create_job
  let rj := trackPages pages {} j
  applyFailurePolicy θ rj.1 rj.2

/-- Embeds the dataclass `RetryConfig` of app/core/api_client.py
(identical defaults in the stale duplicate lib/api_client.py):
maximum attempts 3, base backoff 250 ms, retryable status codes
408, 425, 429, 500, 502, 503, 504 (filled in by `__post_init__`). -/
structure RetryConfig where
  attempts : Nat := 3
  backoff_ms : Nat := 250
  retry_on_status : List Nat := [408, 425, 429, 500, 502, 503, 504]
deriving Repr, DecidableEq

/-- The default configuration `RetryConfig()`. -/
def defaultRetryConfig : RetryConfig := {}

/-- One HTTP exchange as seen by `ApiClient._request`: a success
response (with flags for an empty body and for a decodable JSON body),
a non-success status code, or a network-level error (httpx
TimeoutException / ConnectError / ReadError). -/
inductive HttpEvent
  | success (emptyBody : Bool) (decodeOk : Bool)
  | status (code : Nat)
  | netError
deriving Repr, DecidableEq

/-- How `ApiClient._request` terminates. -/
inductive ReqResult
  | jsonBody
  | emptyObj
  | decodeErrorRaised
  | httpStatusRaised (code : Nat)
  | netErrorRaised
  | exhausted
deriving Repr, DecidableEq

/-- Embeds the retry loop of `ApiClient._request` in
app/core/api_client.py (lines 55-128), the client exported by app.core
and used by the TMDB client.  `events k` is the outcome of the k-th
issued request (0-indexed); `remaining + 1` is the number of attempts
the loop may still make (`max_attempts - attempt + 1` for the 1-based
`attempt` counter of the source, so the current attempt may retry iff
`remaining ≠ 0`, i.e. `attempt < max_attempts`).  On success: an empty
body returns the empty object before any JSON decoding; otherwise the
body is decoded, raising on invalid JSON.  On a retryable status or a
network error with budget left, `_delay(attempt - 1)` sleeps
`backoff_ms * 2 ^ (attempt - 1)` ms (recorded in the returned list) and
the loop continues; otherwise the error is raised.  The first component
collects the backoff sleeps in order. -/
def coreRequestGo (cfg : RetryConfig) (events : Nat → HttpEvent) :
    Nat → Nat → List Nat × ReqResult
  | _, 0 => ([], .exhausted)
  | k, remaining + 1 =>
    match events k with
    | .success true _ => ([], .emptyObj)
    | .success false true => ([], .jsonBody)
    | .success false false => ([], .decodeErrorRaised)
    | .status c =>
      if remaining ≠ 0 ∧ c ∈ cfg.retry_on_status then
        let rec1 := coreRequestGo cfg events (k + 1) remaining
        (cfg.backoff_ms * 2 ^ k :: rec1.1, rec1.2)
      else ([], .httpStatusRaised c)
    | .netError =>
      if remaining ≠ 0 then
        let rec1 := coreRequestGo cfg events (k + 1) remaining
        (cfg.backoff_ms * 2 ^ k :: rec1.1, rec1.2)
      else ([], .netErrorRaised)

/-- `ApiClient._request` run from the top: `max_attempts = max(1,
self.retry_config.attempts)`, `attempt = 1`. -/
def coreRequest (cfg : RetryConfig) (events : Nat → HttpEvent) :
    List Nat × ReqResult :=
  coreRequestGo cfg events 0 (max 1 cfg.attempts)

/-- The mutable columns of a movie row other than the conflict key
`tmdb_id`: exactly the keys of `movie_create.model_dump()` as built by
the processors in app/utils/movie_processor.py (MovieCreate carries the
MovieBase columns plus the hydration tracking columns the CRUD layer
writes; `created_at`/`updated_at` are NOT part of the dump - they live
on the table class only).  Floats (vote_average, popularity) are stored
and compared but never computed with, so they are carried as Rat; dates
and timestamps as Nat ticks. -/
structure MovieCols where
  title : String
  original_title : String
  overview : Option String
  poster_path : Option String
  backdrop_path : Option String
  original_language : String
  release_date : Option Nat
  vote_average : ℚ
  vote_count : Nat
  popularity : ℚ
  runtime : Option Nat
  budget : Option Int
  revenue : Option Int
  status : Option String
  adult : Bool
  is_hydrated : Bool
  last_hydrated_at : Option Nat
  hydration_source : Option String
deriving Repr, DecidableEq

/-- A persisted movie row: local id, the mutable columns, and the
table-level timestamps. -/
structure MovieRow where
  id : Nat
  cols : MovieCols
  created_at : Nat
  updated_at : Nat
deriving Repr, DecidableEq

/-- The persistence state touched by CRUDMovie: the movies table keyed
by `tmdb_id` (unique index; lookups take the first match), the id
sequence, and the two link tables (movie_id, genre_id) /
(movie_id, keyword_id). -/
structure MovieDb where
  rows : List (Nat × MovieRow)
  nextId : Nat
  genreLinks : List (Nat × Nat)
  keywordLinks : List (Nat × Nat)
deriving Repr, DecidableEq

/-- Embeds `CRUDMovie.get_by_tmdb_id`: select the row whose tmdb_id
matches. -/
def getByTmdbId (db : MovieDb) (tmdb_id : Nat) : Option MovieRow :=
  (db.rows.find? (fun p => p.1 = tmdb_id)).map Prod.snd

/-- Replace the (first) row stored under a tmdb_id. -/
def setRow : List (Nat × MovieRow) → Nat → MovieRow → List (Nat × MovieRow)
  | [], _, _ => []
  | p :: rest, tid, row =>
    if p.1 = tid then (tid, row) :: rest else p :: setRow rest tid row

/-- Embeds the per-column change test of
`upsert_movie_with_relationships` (app/crud/movie.py, lines 43-47): the
OR over every non-key column of `stored IS DISTINCT FROM excluded`. -/
def changeNeeded (old new : MovieCols) : Bool :=
  (old.title ≠ new.title) ∨ (old.original_title ≠ new.original_title) ∨
  (old.overview ≠ new.overview) ∨ (old.poster_path ≠ new.poster_path) ∨
  (old.backdrop_path ≠ new.backdrop_path) ∨
  (old.original_language ≠ new.original_language) ∨
  (old.release_date ≠ new.release_date) ∨
  (old.vote_average ≠ new.vote_average) ∨
  (old.vote_count ≠ new.vote_count) ∨ (old.popularity ≠ new.popularity) ∨
  (old.runtime ≠ new.runtime) ∨ (old.budget ≠ new.budget) ∨
  (old.revenue ≠ new.revenue) ∨ (old.status ≠ new.status) ∨
  (old.adult ≠ new.adult) ∨ (old.is_hydrated ≠ new.is_hydrated) ∨
  (old.last_hydrated_at ≠ new.last_hydrated_at) ∨
  (old.hydration_source ≠ new.hydration_source)

/-- Embeds the row half of `upsert_movie_with_relationships`
(app/crud/movie.py, lines 29-75): INSERT .. ON CONFLICT (tmdb_id) DO
UPDATE SET all non-key columns, updated_at = now(), guarded by WHERE
any column IS DISTINCT FROM the excluded value.  No conflict inserts
the row; a conflict with some differing column updates it (stamping
updated_at with the transaction clock `now`); a conflict with no
differing column performs no write (RETURNING yields no row and the
code falls back to `get_by_tmdb_id` for the id).  Returns the state,
the local movie id, and whether a row write happened. -/
def upsertMovieRow (db : MovieDb) (now : Nat) (tmdb_id : Nat)
    (new : MovieCols) : MovieDb × Nat × Bool :=
  match getByTmdbId db tmdb_id with
  | none =>
    let row : MovieRow :=
      { id := db.nextId, cols := new, created_at := now, updated_at := now }
    ({ db with rows := (tmdb_id, row) :: db.rows, nextId := db.nextId + 1 },
      db.nextId, true)
  | some row =>
    if changeNeeded row.cols new then
      let row2 := { row with cols := new, updated_at := now }
      ({ db with rows := setRow db.rows tmdb_id row2 }, row.id, true)
    else
      (db, row.id, false)

/-- Embeds the id normalization of `_upsert_movie_genres` /
`_upsert_movie_keywords` (app/crud/movie.py, lines 112-119 and
183-190): preserve order, skip None and duplicates. -/
def normalizeIds (ids : List (Option Nat)) : List Nat :=
  go ids []
where
  go : List (Option Nat) → List Nat → List Nat
    | [], _ => []
    | none :: rest, seen => go rest seen
    | some i :: rest, seen =>
      if i ∈ seen then go rest seen else i :: go rest (i :: seen)

/-- Embeds `_upsert_movie_genres` / `_upsert_movie_keywords`
(app/crud/movie.py, lines 96-165 and 167-241), which are identical up
to the link table they touch.  An empty id list deletes every link of
the movie and reports a change.  Otherwise: normalize the ids, load the
movie's existing linked ids, and if the two SETS coincide report no
change; else delete the movie's links whose id is not among the
normalized ids (only when some stale link exists), insert the
normalized ids not yet linked (ON CONFLICT DO NOTHING), and report a
change.  Returns the new link table and the changed flag. -/
def upsertMovieLinks (links : List (Nat × Nat)) (movie_id : Nat)
    (ids : List (Option Nat)) : List (Nat × Nat) × Bool :=
  if ids.isEmpty then
    (links.filter (fun p => p.1 ≠ movie_id), true)
  else
    let ordered := normalizeIds ids
    let existing := (links.filter (fun p => p.1 = movie_id)).map Prod.snd
    if existing.all (fun i => i ∈ ordered) ∧ ordered.all (fun i => i ∈ existing) then
      (links, false)
    else
      let links1 :=
        if existing.any (fun i => i ∉ ordered) then
          links.filter (fun p => p.1 ≠ movie_id ∨ p.2 ∈ ordered)
        else links
      let newIds := ordered.filter (fun i => i ∉ existing)
      (links1 ++ newIds.map (fun i => (movie_id, i)), true)

/-- Embeds `CRUDMovie.upsert_movie_with_relationships`
(app/crud/movie.py, lines 20-94): upsert the row, then reconcile the
genre links (when a genre list is given) and the keyword links (when a
keyword list is given).  Returns the state, the movie id, whether the
row itself was written, and whether any relationship row was added or
deleted. -/
def upsert_movie_with_relationships (db : MovieDb) (now : Nat)
    (tmdb_id : Nat) (new : MovieCols)
    (genre_ids keyword_ids : Option (List (Option Nat))) :
    MovieDb × Nat × Bool × Bool :=
  let rmw := upsertMovieRow db now tmdb_id new
  let db1 := rmw.1
  let mid := rmw.2.1
  let g :=
    match genre_ids with
    | some gs => upsertMovieLinks db1.genreLinks mid gs
    | none => (db1.genreLinks, false)
  let k :=
    match keyword_ids with
    | some ks => upsertMovieLinks db1.keywordLinks mid ks
    | none => (db1.keywordLinks, false)
  ({ db1 with genreLinks := g.1, keywordLinks := k.1 },
    mid, rmw.2.2, g.2 || k.2)

/-- The fields of a TMDB list-endpoint item that
`insert_movies_from_tmdb_list_batch` copies into a partial row. -/
structure TmdbListItem where
  tmdb_id : Nat
  title : String
  original_title : String
  overview : Option String
  poster_path : Option String
  backdrop_path : Option String
  original_language : String
  release_date : Option Nat
  vote_average : ℚ
  vote_count : Nat
  popularity : ℚ
  adult : Bool
deriving Repr, DecidableEq

/-- The partial column values built for a list item
(app/crud/movie.py, lines 360-385): list-response fields copied,
detail-only fields None, hydration flag false, hydration source and
timestamp None. -/
def colsOfListItem (item : TmdbListItem) : MovieCols :=
  { title := item.title
    original_title := item.original_title
    overview := some (item.overview.getD "")
    poster_path := item.poster_path
    backdrop_path := item.backdrop_path
    original_language := item.original_language
    release_date := item.release_date
    vote_average := item.vote_average
    vote_count := item.vote_count
    popularity := item.popularity
    runtime := none
    budget := none
    revenue := none
    status := none
    adult := item.adult
    is_hydrated := false
    last_hydrated_at := none
    hydration_source := none }

/-- Embeds `CRUDMovie.insert_movies_from_tmdb_list_batch`
(app/crud/movie.py, lines 338-398): a multi-row INSERT of partial rows
with ON CONFLICT (tmdb_id) DO NOTHING - each value row is inserted only
when its tmdb_id is not yet present (also not inserted earlier in the
same statement); conflicting rows are left completely untouched.  The
trailing SELECT of all ids reads state only. -/
def insert_movies_from_tmdb_list_batch (db : MovieDb) (now : Nat)
    (items : List TmdbListItem) : MovieDb :=
  match items with
  | [] => db
  | item :: rest =>
    match getByTmdbId db item.tmdb_id with
    | some _ => insert_movies_from_tmdb_list_batch db now rest
    | none =>
      let row : MovieRow :=
        { id := db.nextId, cols := colsOfListItem item,
          created_at := now, updated_at := now }
      let db1 : MovieDb :=
        { db with
          rows := (item.tmdb_id, row) :: db.rows
          nextId := db.nextId + 1 }
      insert_movies_from_tmdb_list_batch db1 now rest

/-- Embeds `insert_from_list_and_queue`
(app/utils/movie_processor.py, lines 172-209): the fast endpoint path -
batch-insert the list items (ON CONFLICT DO NOTHING) and fire-and-forget
queue every tmdb_id for background hydration (the queue lives in the
shared store, not in the movie table).  Returns the state and the
queued ids. -/
def insert_from_list_and_queue (db : MovieDb) (now : Nat)
    (items : List TmdbListItem) : MovieDb × List Nat :=
  if items.isEmpty then (db, [])
  else
    (insert_movies_from_tmdb_list_batch db now items,
      items.map TmdbListItem.tmdb_id)

/-- Embeds `AsyncRateLimiter.__init__` (app/utils/rate_limiter.py,
line 15): the spacing interval `1.0 / max(1, max_per_second)`. -/
def limiterInterval (max_per_second : Nat) : ℚ :=
  1 / (max 1 max_per_second : Nat)

/-- Embeds the sleep computation inside `AsyncRateLimiter.acquire`
(app/utils/rate_limiter.py, lines 19-27): under the mutex, with
`elapsed = now - last_acquire`, sleep `interval - elapsed` when
`elapsed < interval`, else not at all. -/
def limiterSleepTime (iv last now : ℚ) : ℚ :=
  if now - last < iv then iv - (now - last) else 0

/-- One completed `acquire()` call, relating the stored `_last_acquire`
before the call to the one after: the first `monotonic()` reading `now`
is at or after the previous store (`last ≤ now`, monotonic clock), the
call sleeps `limiterSleepTime` (asyncio.sleep waits at least the
requested time), and the second `monotonic()` reading - stored as the
new `_last_acquire` - is `fin`.  The mutex serializes concurrent
callers, so an execution is a chain of such steps. -/
inductive AcquireStep (iv : ℚ) : ℚ → ℚ → Prop
  | mk (last now fin : ℚ) (hmono : last ≤ now)
      (hsleep : now + limiterSleepTime iv last now ≤ fin) :
      AcquireStep iv last fin

/-- Per-item environment with the lock free and a successful processor
call (used by concrete scenarios). -/
def envFreeOk : ItemEnv := { lock := .free, proc := .ok }

/-- Per-item environment with the lock free and a processor call that
raises (used by concrete scenarios). -/
def envFreeRaises : ItemEnv := { lock := .free, proc := .raises }

/-- Discovery-page scenario with 10 attempted items of which 9 fail. -/
def scenarioNineOfTen : List (Nat × ItemEnv) :=
  ((List.range 9).map (fun i => (i + 1, envFreeRaises))) ++ [(10, envFreeOk)]

/-- Discovery-page scenario with 10 attempted items of which 8 fail. -/
def scenarioEightOfTen : List (Nat × ItemEnv) :=
  ((List.range 8).map (fun i => (i + 1, envFreeRaises)))
    ++ [(10, envFreeOk), (11, envFreeOk)]

/-- A fully hydrated column payload (used by concrete witnesses). -/
def sampleHydratedCols : MovieCols :=
  { title := "Heat"
    original_title := "Heat"
    overview := some "plot"
    poster_path := some "p"
    backdrop_path := none
    original_language := "en"
    release_date := some 19951215
    vote_average := 8
    vote_count := 5000
    popularity := 44
    runtime := some 170
    budget := some 60000000
    revenue := some 187000000
    status := some "Released"
    adult := false
    is_hydrated := true
    last_hydrated_at := some 100
    hydration_source := some "job" }

/-- A hydrated persisted row under tmdb_id 42 (used by concrete
witnesses). -/
def sampleRow : MovieRow :=
  { id := 1, cols := sampleHydratedCols, created_at := 10, updated_at := 50 }

/-- A one-row database holding the hydrated row (used by concrete
witnesses). -/
def sampleDb : MovieDb :=
  { rows := [(42, sampleRow)], nextId := 2, genreLinks := [(1, 3)],
    keywordLinks := [] }

/-- A TMDB list item carrying the same external id 42 (used by concrete
witnesses). -/
def sampleListItem : TmdbListItem :=
  { tmdb_id := 42
    title := "Heat"
    original_title := "Heat"
    overview := some "plot"
    poster_path := some "p"
    backdrop_path := none
    original_language := "en"
    release_date := some 19951215
    vote_average := 8
    vote_count := 5000
    popularity := 44
    adult := false }

/- Helper lemmas shared by the claim theorems. -/

/-- The cooperative check cuts the loop exactly at the signalled index:
running with the event set from index `k` on is running the first
`k - i` items with no event at all. -/
theorem lockedBatchLoopFrom_cancel_take (k : Nat) :
    ∀ (items : List (Nat × ItemEnv)) (i : Nat) (r : BatchProcessResult),
      lockedBatchLoopFrom (some k) i items r =
        lockedBatchLoopFrom none i (items.take (k - i)) r := by
  intro items
  induction items with
  | nil =>
    intro i r
    simp [lockedBatchLoopFrom]
  | cons p rest ih =>
    intro i r
    by_cases h : k ≤ i
    · have hz : k - i = 0 := Nat.sub_eq_zero_of_le h
      simp [lockedBatchLoopFrom, cancelFires, h, hz]
    · have hlt : i < k := Nat.lt_of_not_le h
      have hs : k - i = (k - (i + 1)) + 1 := by omega
      rw [hs]
      simp only [List.take_succ_cons]
      simp only [lockedBatchLoopFrom, cancelFires, h, decide_eq_true_eq,
        if_false]
      split
      · rename_i hacq
        simp [ih (i + 1) _]
      · exact ih (i + 1) _

/-- With no cancellation and every lock acquisition succeeding, the loop
attempts exactly the input id sequence, occurrence by occurrence, in
input order (no deduplication happens anywhere before or inside the
loop). -/
theorem lockedBatchLoopFrom_trace_all_free :
    ∀ (items : List (Nat × ItemEnv)) (i : Nat) (r : BatchProcessResult),
      (∀ p ∈ items, p.2.lock = LockStoreOutcome.free) →
      (lockedBatchLoopFrom none i items r).2 = items.map Prod.fst := by
  intro items
  induction items with
  | nil => intro i r _; simp [lockedBatchLoopFrom]
  | cons p rest ih =>
    intro i r hall
    have hp : p.2.lock = LockStoreOutcome.free := hall p (List.mem_cons_self p rest)
    have hrest : ∀ q ∈ rest, q.2.lock = LockStoreOutcome.free := by
      intro q hq; exact hall q (List.mem_cons_of_mem p hq)
    obtain ⟨mid, e⟩ := p
    simp only at hp
    simp only [lockedBatchLoopFrom, cancelFires, hp, acquire_movie_lock]
    cases e.proc <;> simp [ih (i + 1) _ hrest]

/-- C1 counterexample: the input list [7, 7] (same id twice, lock free
both times, processing succeeding) is NOT deduplicated by the batch
loop of `_discover_movies` / `_track_changes` - the id 7 is attempted
twice, refuting the claim that each unique id is processed exactly
once. -/
theorem C1_counterexample_duplicate_processed_twice :
    (lockedBatchLoop none [(7, envFreeOk), (7, envFreeOk)]).2 = [7, 7] ∧
    (lockedBatchLoop none [(7, envFreeOk), (7, envFreeOk)]).1.attempted = 2 ∧
    ¬ (lockedBatchLoop none [(7, envFreeOk), (7, envFreeOk)]).2.count 7 = 1 := by
  decide

/-- C1 amended: the batch loops iterate over the raw id list without
deduplication - with no cancellation and every lock free, the attempted
trace is exactly the input occurrence sequence in input order (an id
occurring n times is attempted n times). -/
theorem C1_occurrences_processed_in_input_order
    (items : List (Nat × ItemEnv))
    (h : ∀ p ∈ items, p.2.lock = LockStoreOutcome.free) :
    (lockedBatchLoop none items).2 = items.map Prod.fst :=
  lockedBatchLoopFrom_trace_all_free items 0 {} h

/-- Witness for the amended C1 theorem at a concrete input. -/
theorem C1_occurrences_processed_in_input_order_witness :
    (lockedBatchLoop none [(7, envFreeOk), (8, envFreeOk)]).2 = [7, 8] :=
  C1_occurrences_processed_in_input_order
    [(7, envFreeOk), (8, envFreeOk)] (by decide)

/-- C2 counterexample: a lock-store infrastructure error (the store
client raising inside `acquire_movie_lock`) is swallowed - the call
returns False exactly as for contention, so the loop counts the item as
`skipped_locked` and never attempts it, refuting the claim that such an
item increments both `attempted` and `failed`. -/
theorem C2_counterexample_infra_error_counted_skipped :
    (lockedBatchLoop none
        [(5, { lock := .infraError, proc := .ok })]).1 =
      { attempted := 0, succeeded := 0, failed := 0, skipped_locked := 1,
        skipped_existing := 0 } ∧
    ¬ ((lockedBatchLoop none
          [(5, { lock := .infraError, proc := .ok })]).1.attempted = 1 ∧
        (lockedBatchLoop none
          [(5, { lock := .infraError, proc := .ok })]).1.failed = 1) := by
  decide

/-- C2 amended: every falsy lock acquisition - contention, lock-store
infrastructure error, or uninitialized store client - is treated
identically by the batch loop: `skipped_locked` is incremented and the
item is not attempted; the causes are not distinguished in the counts. -/
theorem C2_any_lock_failure_counted_skipped
    (cancelAt : Option Nat) (i mid : Nat) (e : ItemEnv)
    (rest : List (Nat × ItemEnv)) (r : BatchProcessResult)
    (hlock : acquire_movie_lock e.lock = false)
    (hnc : cancelFires cancelAt i = false) :
    acquire_movie_lock .held = false ∧
    acquire_movie_lock .infraError = false ∧
    acquire_movie_lock .uninitialized = false ∧
    lockedBatchLoopFrom cancelAt i ((mid, e) :: rest) r =
      lockedBatchLoopFrom cancelAt (i + 1) rest
        { r with skipped_locked := r.skipped_locked + 1 } := by
  refine ⟨rfl, rfl, rfl, ?_⟩
  simp [lockedBatchLoopFrom, hnc, hlock]

/-- Witness for the amended C2 theorem at a concrete input. -/
theorem C2_any_lock_failure_counted_skipped_witness :
    lockedBatchLoopFrom none 0
        [(5, { lock := .infraError, proc := .ok })] {} =
      lockedBatchLoopFrom none 1 []
        { attempted := 0, succeeded := 0, failed := 0, skipped_locked := 0 + 1,
          skipped_existing := 0 } :=
  (C2_any_lock_failure_counted_skipped none 0 5
    { lock := .infraError, proc := .ok } [] {} (by decide) (by decide)).2.2.2

/-- C4 (code bug witness): a change-tracking run of two pages, each with
one successfully processed item, calls `increment_counts` with the
RUNNING totals (1 after page one, then 2 after page two), so the
persisted processed counter receives a total increment of 3 for only 2
succeeded items - the second page's call re-adds page one's successes
instead of adding the page's delta. -/
theorem C4_change_tracking_double_counts :
    (trackPages [[(1, envFreeOk)], [(2, envFreeOk)]] {}
        (start_job create_job)).1.succeeded = 2 ∧
    (trackPages [[(1, envFreeOk)], [(2, envFreeOk)]] {}
        (start_job create_job)).1.failed = 0 ∧
    (trackPages [[(1, envFreeOk)], [(2, envFreeOk)]] {}
        (start_job create_job)).2.processed_items = 3 := by
  decide

/-- C5: cancellation signalled before any item is attempted drives the
discovery run to the CANCELLED terminal state with zero processed and
zero failed counts (the CancelledError raised by the task-cancel
backstop is caught and `cancel_job` keeps the untouched zero counters);
CANCELLED is distinct from FAILED; and cancellation observed at item
index k halts the loop there - items from index k on are never started,
the loop behaving exactly as if only the first k items existed. -/
theorem C5_cancellation_cooperative_halt (θ : ℚ)
    (items : List (Nat × ItemEnv)) (k : Nat) (r : BatchProcessResult) :
    runDiscovery θ (some 0) items =
      { status := .cancelled, processed_items := 0, failed_items := 0 } ∧
    JobExecutionStatus.cancelled ≠ JobExecutionStatus.failed ∧
    lockedBatchLoopFrom (some k) 0 items r =
      lockedBatchLoopFrom none 0 (items.take k) r := by
  refine ⟨?_, by decide, ?_⟩
  · cases items with
    | nil => rfl
    | cons p rest =>
      have h : (0 : Nat) < (p :: rest).length := by simp
      simp [runDiscovery, h, start_job, create_job, cancel_job]
  · simpa using lockedBatchLoopFrom_cancel_take k items 0 r

/-- The failure-rate policy tail shared by the runners: the job is
marked FAILED iff something was attempted and the failure rate reaches
the threshold, COMPLETED otherwise. -/
theorem applyFailurePolicy_status (θ : ℚ) (r : BatchProcessResult)
    (j : JobStatusRec) :
    ((applyFailurePolicy θ r j).status = JobExecutionStatus.failed ↔
      0 < r.attempted ∧ θ ≤ failureRate r) ∧
    ((applyFailurePolicy θ r j).status = JobExecutionStatus.completed ↔
      ¬ (0 < r.attempted ∧ θ ≤ failureRate r)) := by
  by_cases h : 0 < r.attempted ∧ θ ≤ failureRate r <;>
    simp [applyFailurePolicy, h, fail_job, complete_job]

/-- C3: for a run whose batch loop finishes with no cancellation and no
uncaught exception, both runners mark the job FAILED exactly when
something was attempted and failed/attempted reaches the threshold, and
COMPLETED otherwise; at the default threshold 0.9, a page with
attempted = 10, failed = 9 yields FAILED and one with attempted = 10,
failed = 8 yields COMPLETED. -/
theorem C3_failure_rate_policy (θ : ℚ) (items : List (Nat × ItemEnv))
    (pages : List (List (Nat × ItemEnv))) :
    ((runDiscovery θ none items).status = JobExecutionStatus.failed ↔
      0 < (lockedBatchLoop none items).1.attempted ∧
        θ ≤ failureRate (lockedBatchLoop none items).1) ∧
    ((runDiscovery θ none items).status = JobExecutionStatus.completed ↔
      ¬ (0 < (lockedBatchLoop none items).1.attempted ∧
          θ ≤ failureRate (lockedBatchLoop none items).1)) ∧
    ((runChangeTracking θ pages).status = JobExecutionStatus.failed ↔
      0 < (trackPages pages {} (start_job create_job)).1.attempted ∧
        θ ≤ failureRate (trackPages pages {} (start_job create_job)).1) ∧
    ((runChangeTracking θ pages).status = JobExecutionStatus.completed ↔
      ¬ (0 < (trackPages pages {} (start_job create_job)).1.attempted ∧
          θ ≤ failureRate (trackPages pages {} (start_job create_job)).1)) ∧
    (lockedBatchLoop none scenarioNineOfTen).1.attempted = 10 ∧
    (lockedBatchLoop none scenarioNineOfTen).1.failed = 9 ∧
    (runDiscovery errorRateThresholdDefault none scenarioNineOfTen).status =
      JobExecutionStatus.failed ∧
    (lockedBatchLoop none scenarioEightOfTen).1.attempted = 10 ∧
    (lockedBatchLoop none scenarioEightOfTen).1.failed = 8 ∧
    (runDiscovery errorRateThresholdDefault none scenarioEightOfTen).status =
      JobExecutionStatus.completed := by
  have h9 : (lockedBatchLoop none scenarioNineOfTen).1 =
      { attempted := 10, succeeded := 1, failed := 9, skipped_locked := 0,
        skipped_existing := 0 } := by decide
  have h8 : (lockedBatchLoop none scenarioEightOfTen).1 =
      { attempted := 10, succeeded := 2, failed := 8, skipped_locked := 0,
        skipped_existing := 0 } := by decide
  refine ⟨(applyFailurePolicy_status θ _ _).1, (applyFailurePolicy_status θ _ _).2,
    (applyFailurePolicy_status θ _ _).1, (applyFailurePolicy_status θ _ _).2,
    ?_, ?_, ?_, ?_, ?_, ?_⟩
  · rw [h9]
  · rw [h9]
  · refine (applyFailurePolicy_status _ _ _).1.mpr ?_
    rw [h9]
    refine ⟨by norm_num, ?_⟩
    norm_num [failureRate, errorRateThresholdDefault]
  · rw [h8]
  · rw [h8]
  · refine (applyFailurePolicy_status _ _ _).2.mpr ?_
    rw [h8]
    rintro ⟨-, hle⟩
    norm_num [failureRate, errorRateThresholdDefault] at hle

/-- The backoff sleeps recorded by the retry loop started at request
index k with a given attempt budget form the doubling schedule
backoff_ms * 2 ^ k, backoff_ms * 2 ^ (k+1), ..., and there are at most
budget - 1 of them (one per retry; every retry requires
`attempt < max_attempts`). -/
theorem coreRequestGo_delays (cfg : RetryConfig) (events : Nat → HttpEvent) :
    ∀ (remaining k : Nat), ∃ n : Nat,
      (coreRequestGo cfg events k remaining).1 =
        (List.range' k n).map (fun i => cfg.backoff_ms * 2 ^ i) ∧
      n ≤ remaining - 1 := by
  intro remaining
  induction remaining with
  | zero =>
    intro k
    exact ⟨0, by simp [coreRequestGo], by simp⟩
  | succ m ih =>
    intro k
    simp only [coreRequestGo]
    cases hev : events k with
    | success e d =>
      cases e <;> cases d <;> exact ⟨0, by simp, by simp⟩
    | status c =>
      by_cases h : m ≠ 0 ∧ c ∈ cfg.retry_on_status
      · obtain ⟨n, hn, hle⟩ := ih (k + 1)
        refine ⟨n + 1, ?_, by omega⟩
        simp [h, hn, List.range'_succ]
      · exact ⟨0, by simp [h], by simp⟩
    | netError =>
      by_cases h : m ≠ 0
      · obtain ⟨n, hn, hle⟩ := ih (k + 1)
        refine ⟨n + 1, ?_, by omega⟩
        simp [h, hn, List.range'_succ]
      · exact ⟨0, by simp [h], by simp⟩

/-- C6: for every request through the app.core ApiClient, the backoff
sleep before the k-th retry (0-indexed) is backoff_ms * 2 ^ k
milliseconds, the number of retries (requests after the first) never
exceeds attempts - 1, and with the default configuration
(attempts = 3) there are at most 2 retries. -/
theorem C6_retry_backoff_schedule (cfg : RetryConfig)
    (events : Nat → HttpEvent) :
    (coreRequest cfg events).1 =
      (List.range (coreRequest cfg events).1.length).map
        (fun k => cfg.backoff_ms * 2 ^ k) ∧
    (coreRequest cfg events).1.length ≤ cfg.attempts - 1 ∧
    defaultRetryConfig.attempts = 3 ∧
    (coreRequest defaultRetryConfig events).1.length ≤ 2 := by
  obtain ⟨n, hn, hle⟩ := coreRequestGo_delays cfg events (max 1 cfg.attempts) 0
  have hcr : (coreRequest cfg events).1 =
      (List.range' 0 n).map (fun i => cfg.backoff_ms * 2 ^ i) := hn
  have hlen : (coreRequest cfg events).1.length = n := by simp [hcr]
  obtain ⟨n2, hn2, hle2⟩ :=
    coreRequestGo_delays defaultRetryConfig events
      (max 1 defaultRetryConfig.attempts) 0
  have hlen2 : (coreRequest defaultRetryConfig events).1.length = n2 := by
    have hcr2 : (coreRequest defaultRetryConfig events).1 =
        (List.range' 0 n2).map
          (fun i => defaultRetryConfig.backoff_ms * 2 ^ i) := hn2
    simp [hcr2]
  refine ⟨?_, ?_, rfl, ?_⟩
  · rw [hlen, List.range_eq_range']
    exact hcr
  · rw [hlen]
    omega
  · rw [hlen2]
    have : max 1 defaultRetryConfig.attempts = 3 := rfl
    omega

/-- When the first c responses are network errors, the (c+1)-st is a
success with an empty body, and c is within the retry budget, the loop
returns the empty object (never reaching JSON decoding). -/
theorem coreRequestGo_net_prefix_emptyObj (cfg : RetryConfig)
    (events : Nat → HttpEvent) :
    ∀ (c j remaining : Nat) (d : Bool),
      (∀ i, i < c → events (j + i) = HttpEvent.netError) →
      events (j + c) = HttpEvent.success true d →
      c < remaining →
      (coreRequestGo cfg events j remaining).2 = ReqResult.emptyObj := by
  intro c
  induction c with
  | zero =>
    intro j remaining d _ hsucc hlt
    obtain ⟨m, rfl⟩ := Nat.exists_eq_succ_of_ne_zero (Nat.pos_iff_ne_zero.mp hlt)
    simp only [Nat.add_zero] at hsucc
    simp [coreRequestGo, hsucc]
  | succ c ih =>
    intro j remaining d hpre hsucc hlt
    obtain ⟨m, rfl⟩ := Nat.exists_eq_succ_of_ne_zero
      (Nat.pos_iff_ne_zero.mp (Nat.lt_of_le_of_lt (Nat.zero_le _) hlt))
    have hj : events j = HttpEvent.netError := by
      simpa using hpre 0 (Nat.succ_pos c)
    have hm : m ≠ 0 := by omega
    simp only [coreRequestGo, hj, hm, ne_eq, not_false_eq_true, if_true]
    refine ih (j + 1) m d ?_ ?_ ?_
    · intro i hi
      have := hpre (i + 1) (Nat.succ_lt_succ hi)
      simpa [Nat.add_assoc, Nat.add_comm 1 i] using this
    · simpa [Nat.add_assoc, Nat.add_comm 1 c] using hsucc
    · omega

/-- C9: a successful HTTP response with an empty body makes the
app.core ApiClient request method return the empty object instead of
attempting (and failing) JSON decoding - also when the success follows
a retried prefix of network errors within the attempt budget. -/
theorem C9_empty_body_returns_empty_object (cfg : RetryConfig)
    (events : Nat → HttpEvent) (k : Nat) (d : Bool)
    (hk : k < max 1 cfg.attempts)
    (hpre : ∀ j, j < k → events j = HttpEvent.netError)
    (hsucc : events k = HttpEvent.success true d) :
    (coreRequest cfg events).2 = ReqResult.emptyObj := by
  refine coreRequestGo_net_prefix_emptyObj cfg events k 0 (max 1 cfg.attempts) d
    ?_ ?_ hk
  · intro i hi
    simpa using hpre i hi
  · simpa using hsucc

/-- Witness for C9: default configuration, one network error followed
by an empty-body success. -/
theorem C9_empty_body_returns_empty_object_witness :
    (coreRequest defaultRetryConfig
        (fun j => if j = 0 then HttpEvent.netError
          else HttpEvent.success true false)).2 = ReqResult.emptyObj :=
  C9_empty_body_returns_empty_object defaultRetryConfig _ 1 false
    (by decide) (by decide) (by decide)

/-- One acquire spaces the stored timestamp by at least the interval:
if the first clock reading is early the call sleeps the remainder, and
if it is late the elapsed time already exceeds the interval. -/
theorem AcquireStep.spacing {iv last fin : ℚ}
    (h : AcquireStep iv last fin) : last + iv ≤ fin := by
  cases h with
  | mk n m hmono hsleep =>
    unfold limiterSleepTime at hsleep
    by_cases hc : n - last < iv
    · rw [if_pos hc] at hsleep
      linarith
    · rw [if_neg hc] at hsleep
      push_neg at hc
      linarith

/-- A chain of n acquires advances the stored timestamp by at least
n times the interval. -/
theorem acquireChain_span (iv : ℚ) :
    ∀ (ts : List ℚ) (t0 : ℚ), List.Chain (AcquireStep iv) t0 ts →
      t0 + ts.length * iv ≤ (t0 :: ts).getLastD 0 := by
  intro ts
  induction ts with
  | nil => intro t0 _; simp
  | cons b l ih =>
    intro t0 hch
    rcases List.chain_cons.mp hch with ⟨hstep, hrest⟩
    have h1 : t0 + iv ≤ b := hstep.spacing
    have h2 := ih b hrest
    have hlast : (t0 :: b :: l).getLastD 0 = (b :: l).getLastD 0 := by
      simp [List.getLastD_cons]
    rw [hlast, List.length_cons]
    push_cast
    push_cast at h2
    linarith

/-- C8: consecutive completed `acquire()` calls on one limiter are at
least `1/N` seconds apart (the timestamps stored by successive calls
are spaced by the interval), and a chain of N+1 sequential acquires
spans at least one second in total; the internal mutex serializes all
callers, so this holds regardless of caller concurrency. -/
theorem C8_rate_limiter_spacing (N : Nat) (last fin t0 : ℚ) (ts : List ℚ)
    (hN : 1 ≤ N)
    (hstep : AcquireStep (limiterInterval N) last fin)
    (hchain : List.Chain (AcquireStep (limiterInterval N)) t0 ts)
    (hlen : ts.length = N) :
    last + limiterInterval N ≤ fin ∧
    t0 + 1 ≤ (t0 :: ts).getLastD 0 := by
  constructor
  · exact hstep.spacing
  · have h := acquireChain_span (limiterInterval N) ts t0 hchain
    rw [hlen] at h
    have hiv : (N : ℚ) * limiterInterval N = 1 := by
      unfold limiterInterval
      rw [Nat.max_eq_right hN]
      have hN0 : (N : ℚ) ≠ 0 := by
        exact_mod_cast Nat.pos_iff_ne_zero.mp hN
      field_simp
    linarith

/-- Witness for C8 at N = 1: interval 1 second, one step from 0 to 1
and a one-step chain [1]. -/
theorem C8_rate_limiter_spacing_witness :
    (0 : ℚ) + limiterInterval 1 ≤ 1 ∧
    (0 : ℚ) + 1 ≤ ((0 : ℚ) :: [(1 : ℚ)]).getLastD 0 := by
  have hstep : AcquireStep (limiterInterval 1) 0 1 := by
    refine AcquireStep.mk 0 0 1 le_rfl ?_
    norm_num [limiterSleepTime, limiterInterval]
  exact C8_rate_limiter_spacing 1 0 1 0 [1] le_rfl hstep
    (List.Chain.cons hstep List.Chain.nil) rfl

/-- The batched ON CONFLICT DO NOTHING insert never modifies a row that
already exists: a lookup that succeeded before the call returns the
identical row afterwards. -/
theorem insertBatch_preserves_existing (now : Nat) :
    ∀ (items : List TmdbListItem) (db : MovieDb) (tid : Nat)
      (row : MovieRow),
      getByTmdbId db tid = some row →
      getByTmdbId (insert_movies_from_tmdb_list_batch db now items) tid =
        some row := by
  intro items
  induction items with
  | nil =>
    intro db tid row h
    simpa [insert_movies_from_tmdb_list_batch] using h
  | cons item rest ih =>
    intro db tid row h
    simp only [insert_movies_from_tmdb_list_batch]
    cases hx : getByTmdbId db item.tmdb_id with
    | some r2 => exact ih db tid row h
    | none =>
      apply ih
      have hne : ¬ item.tmdb_id = tid := by
        intro he
        rw [he, h] at hx
        cases hx
      simpa [getByTmdbId, List.find?_cons_of_neg, hne] using h

/-- C10: the fast-insert path never modifies an existing row - for an
external id already present, the complete row (in particular the
hydration flag, hydration source and last-hydrated timestamp) is
unchanged by `insert_from_list_and_queue`, so a hydrated entity is
never reverted to the partial state by endpoint-driven discovery. -/
theorem C10_fast_insert_never_modifies_existing (db : MovieDb) (now : Nat)
    (items : List TmdbListItem) (tid : Nat) (row : MovieRow)
    (h : getByTmdbId db tid = some row) :
    getByTmdbId (insert_from_list_and_queue db now items).1 tid =
      some row ∧
    (getByTmdbId (insert_from_list_and_queue db now items).1 tid).map
        (fun r => (r.cols.is_hydrated, r.cols.hydration_source,
          r.cols.last_hydrated_at)) =
      some (row.cols.is_hydrated, row.cols.hydration_source,
        row.cols.last_hydrated_at) := by
  have hmain : getByTmdbId (insert_from_list_and_queue db now items).1 tid =
      some row := by
    unfold insert_from_list_and_queue
    by_cases hemp : items.isEmpty
    · simpa [hemp] using h
    · simpa [hemp] using insertBatch_preserves_existing now items db tid row h
  exact ⟨hmain, by rw [hmain]; rfl⟩

/-- Witness for C10: inserting a list item with the already-present
external id 42 leaves the hydrated sample row untouched. -/
theorem C10_fast_insert_never_modifies_existing_witness :
    getByTmdbId (insert_from_list_and_queue sampleDb 9 [sampleListItem]).1 42 =
      some sampleRow ∧
    (getByTmdbId (insert_from_list_and_queue sampleDb 9 [sampleListItem]).1
        42).map
        (fun r => (r.cols.is_hydrated, r.cols.hydration_source,
          r.cols.last_hydrated_at)) =
      some (sampleRow.cols.is_hydrated, sampleRow.cols.hydration_source,
        sampleRow.cols.last_hydrated_at) :=
  C10_fast_insert_never_modifies_existing sampleDb 9 [sampleListItem] 42
    sampleRow rfl

/-- Re-applying identical column values needs no change: every
IS DISTINCT FROM comparison is false. -/
theorem changeNeeded_self (c : MovieCols) : changeNeeded c c = false := by
  simp [changeNeeded]

/-- Replacing the row stored under a key makes the keyed lookup return
the replacement (the unique-index lookup and the replacement walk the
table in the same order). -/
theorem find?_setRow (tid : Nat) (row2 : MovieRow) :
    ∀ (rows : List (Nat × MovieRow)) (pr : Nat × MovieRow),
      rows.find? (fun p => p.1 = tid) = some pr →
      (setRow rows tid row2).find? (fun p => p.1 = tid) =
        some (tid, row2) := by
  intro rows
  induction rows with
  | nil => intro pr h; simp at h
  | cons q rest ih =>
    intro pr h
    by_cases hq : q.1 = tid
    · simp [setRow, hq, List.find?]
    · rw [List.find?_cons_of_neg _ (by simpa using hq)] at h
      simp only [setRow, if_neg hq]
      rw [List.find?_cons_of_neg _ (by simpa using hq)]
      exact ih pr h

/-- A second row upsert with the same payload is a no-op: whatever the
first call did (insert, update, or nothing), the stored columns now
equal the payload, so the conditional update's WHERE clause is false -
no row is written and the state (and in particular `updated_at`) is
returned untouched, with the same movie id as the first call. -/
theorem upsertMovieRow_second_noop (db : MovieDb) (now1 now2 tid : Nat)
    (new : MovieCols) (db2 : MovieDb)
    (hrows : db2.rows = (upsertMovieRow db now1 tid new).1.rows) :
    upsertMovieRow db2 now2 tid new =
      (db2, (upsertMovieRow db now1 tid new).2.1, false) := by
  cases h : getByTmdbId db tid with
  | none =>
    have hlook : getByTmdbId db2 tid =
        some
          { id := db.nextId
            cols := new
            created_at := now1
            updated_at := now1 } := by
      unfold getByTmdbId
      rw [hrows]
      simp only [upsertMovieRow, h]
      simp [List.find?]
    simp [upsertMovieRow, h, hlook, changeNeeded_self]
  | some row =>
    by_cases hch : changeNeeded row.cols new = true
    · obtain ⟨pr, hpr, hpr2⟩ := Option.map_eq_some'.mp h
      have hlook : getByTmdbId db2 tid =
          some { row with cols := new, updated_at := now1 } := by
        unfold getByTmdbId
        rw [hrows]
        simp only [upsertMovieRow, h, hch, if_true]
        rw [find?_setRow tid _ db.rows pr hpr]
        rfl
      simp [upsertMovieRow, h, hch, hlook, changeNeeded_self]
    · have hch2 : changeNeeded row.cols new = false := by
        simpa using hch
      have hlook : getByTmdbId db2 tid = some row := by
        unfold getByTmdbId
        rw [hrows]
        simp only [upsertMovieRow, h, hch2]
        exact h
      simp [upsertMovieRow, h, hch2, hlook]

/-- Membership in the movie's slice of a link table: the keyed filter
followed by the id projection sees exactly the pairs (m, a) stored. -/
theorem mem_filter_map_links (links : List (Nat × Nat)) (m a : Nat) :
    a ∈ (links.filter (fun p => p.1 = m)).map Prod.snd ↔ (m, a) ∈ links := by
  constructor
  · intro h
    obtain ⟨p, hp, hpa⟩ := List.mem_map.mp h
    obtain ⟨hpl, hpP⟩ := List.mem_filter.mp hp
    simp only [decide_eq_true_eq] at hpP
    obtain ⟨p1, p2⟩ := p
    simp only at hpP hpa
    subst hpP
    subst hpa
    exact hpl
  · intro h
    refine List.mem_map.mpr ⟨(m, a), List.mem_filter.mpr ⟨h, ?_⟩, rfl⟩
    simp

/-- After reconciling a nonempty id list, the movie's linked ids are
exactly the normalized desired ids: stale links were removed (or none
existed), missing links were inserted, and kept links were already
desired. -/
theorem upsertMovieLinks_mem (links : List (Nat × Nat)) (m : Nat)
    (ids : List (Option Nat)) (hne : ids.isEmpty = false) (a : Nat) :
    ((m, a) ∈ (upsertMovieLinks links m ids).1 ↔ a ∈ normalizeIds ids) := by
  simp only [upsertMovieLinks, hne, Bool.false_eq_true, if_false]
  by_cases hsame :
      (((links.filter (fun p => p.1 = m)).map Prod.snd).all
        (fun i => i ∈ normalizeIds ids) = true) ∧
      ((normalizeIds ids).all
        (fun i => i ∈ (links.filter (fun p => p.1 = m)).map Prod.snd) = true)
  · rw [if_pos hsame]
    obtain ⟨h1, h2⟩ := hsame
    rw [List.all_eq_true] at h1 h2
    constructor
    · intro h
      have hmem : a ∈ (links.filter (fun p => p.1 = m)).map Prod.snd :=
        (mem_filter_map_links links m a).mpr h
      simpa using h1 a hmem
    · intro h
      have := h2 a h
      simp only [decide_eq_true_eq] at this
      exact (mem_filter_map_links links m a).mp this
  · rw [if_neg hsame]
    simp only [List.mem_append]
    constructor
    · rintro (hL | hN)
      · by_cases hstale :
            ((links.filter (fun p => p.1 = m)).map Prod.snd).any
              (fun i => ¬ i ∈ normalizeIds ids) = true
        · rw [if_pos hstale] at hL
          obtain ⟨-, hq⟩ := List.mem_filter.mp hL
          simp only [decide_eq_true_eq] at hq
          rcases hq with hq | hq
          · exact absurd rfl hq
          · exact hq
        · rw [if_neg hstale] at hL
          have hmem : a ∈ (links.filter (fun p => p.1 = m)).map Prod.snd :=
            (mem_filter_map_links links m a).mpr hL
          by_contra hxo
          exact hstale (List.any_eq_true.mpr ⟨a, hmem, by simpa using hxo⟩)
      · obtain ⟨i, hi, heq⟩ := List.mem_map.mp hN
        obtain ⟨hio, -⟩ := List.mem_filter.mp hi
        have hia : i = a := by simpa using congrArg Prod.snd heq
        subst hia
        exact hio
    · intro ha
      by_cases hae : a ∈ (links.filter (fun p => p.1 = m)).map Prod.snd
      · left
        have hlinks : (m, a) ∈ links := (mem_filter_map_links links m a).mp hae
        by_cases hstale :
            ((links.filter (fun p => p.1 = m)).map Prod.snd).any
              (fun i => ¬ i ∈ normalizeIds ids) = true
        · rw [if_pos hstale]
          exact List.mem_filter.mpr ⟨hlinks, by simp [ha]⟩
        · rw [if_neg hstale]
          exact hlinks
      · right
        refine List.mem_map.mpr ⟨a, List.mem_filter.mpr ⟨ha, ?_⟩, rfl⟩
        simpa using hae

/-- Reconciling the same id list a second time changes no link row:
after the first call the movie's linked-id set equals the desired set,
so the second call takes the no-change branch (nonempty ids), or
repeats a delete of already-deleted rows (empty ids). -/
theorem upsertMovieLinks_state_idem (links : List (Nat × Nat)) (m : Nat)
    (ids : List (Option Nat)) :
    (upsertMovieLinks (upsertMovieLinks links m ids).1 m ids).1 =
      (upsertMovieLinks links m ids).1 := by
  by_cases hemp : ids.isEmpty = true
  · simp only [upsertMovieLinks, hemp, if_true]
    simp [List.filter_filter]
  · have hne : ids.isEmpty = false := by simpa using hemp
    have hmem : ∀ x, ((m, x) ∈ (upsertMovieLinks links m ids).1 ↔
        x ∈ normalizeIds ids) := upsertMovieLinks_mem links m ids hne
    have hA : (((upsertMovieLinks links m ids).1.filter
        (fun p => p.1 = m)).map Prod.snd).all
          (fun i => i ∈ normalizeIds ids) = true := by
      rw [List.all_eq_true]
      intro x hx
      have hx2 : (m, x) ∈ (upsertMovieLinks links m ids).1 :=
        (mem_filter_map_links _ m x).mp hx
      simpa using (hmem x).mp hx2
    have hB : ((normalizeIds ids).all
        (fun i => i ∈ ((upsertMovieLinks links m ids).1.filter
          (fun p => p.1 = m)).map Prod.snd)) = true := by
      rw [List.all_eq_true]
      intro x hx
      have hx2 : (m, x) ∈ (upsertMovieLinks links m ids).1 :=
        (hmem x).mpr (by simpa using hx)
      simpa using (mem_filter_map_links _ m x).mpr hx2
    conv_lhs =>
      rw [upsertMovieLinks]
    rw [if_neg (by simp [hne])]
    rw [if_pos ⟨hA, hB⟩]

/-- C7: the entity upsert is idempotent - applying
`upsert_movie_with_relationships` a second time with the same payload
and the same genre/keyword id lists leaves the state identical (no row
is updated, no relationship row is added or deleted), performs no row
write (the conditional update's WHERE clause is false on every column),
and leaves the row's `updated_at` exactly as after the first call. -/
theorem C7_upsert_idempotent (db : MovieDb) (now1 now2 tid : Nat)
    (new : MovieCols) (gids kids : Option (List (Option Nat))) :
    (upsert_movie_with_relationships
        (upsert_movie_with_relationships db now1 tid new gids kids).1
        now2 tid new gids kids).1 =
      (upsert_movie_with_relationships db now1 tid new gids kids).1 ∧
    (upsert_movie_with_relationships
        (upsert_movie_with_relationships db now1 tid new gids kids).1
        now2 tid new gids kids).2.2.1 = false ∧
    (getByTmdbId (upsert_movie_with_relationships
        (upsert_movie_with_relationships db now1 tid new gids kids).1
        now2 tid new gids kids).1 tid).map MovieRow.updated_at =
      (getByTmdbId
        (upsert_movie_with_relationships db now1 tid new gids kids).1
        tid).map MovieRow.updated_at := by
  have hrow2 := upsertMovieRow_second_noop db now1 now2 tid new
    (upsert_movie_with_relationships db now1 tid new gids kids).1 rfl
  have hmain : (upsert_movie_with_relationships
      (upsert_movie_with_relationships db now1 tid new gids kids).1
      now2 tid new gids kids).1 =
      (upsert_movie_with_relationships db now1 tid new gids kids).1 ∧
      (upsert_movie_with_relationships
        (upsert_movie_with_relationships db now1 tid new gids kids).1
        now2 tid new gids kids).2.2.1 = false := by
    cases gids with
    | none =>
      cases kids with
      | none =>
        simp only [upsert_movie_with_relationships] at hrow2 ⊢
        simp [hrow2]
      | some ks =>
        simp only [upsert_movie_with_relationships] at hrow2 ⊢
        simp [hrow2, upsertMovieLinks_state_idem]
    | some gs =>
      cases kids with
      | none =>
        simp only [upsert_movie_with_relationships] at hrow2 ⊢
        simp [hrow2, upsertMovieLinks_state_idem]
      | some ks =>
        simp only [upsert_movie_with_relationships] at hrow2 ⊢
        simp [hrow2, upsertMovieLinks_state_idem]
  exact ⟨hmain.1, hmain.2, by rw [hmain.1]⟩

end SagePick
